import Mathlib

/-!
Verification of the prtyprnt logging library (Logger.ts, Utils.ts) against its
natural-language specification.  The TypeScript source is embedded shallowly:
pure computations become Lean functions, the mutable write-stream sharing along
the parent chain becomes explicit state passing over a list of own-slots, and
external collaborators (file system, gzip codec, clock, timezone) become
explicit parameters.
-/

namespace Prtyprnt

/-- The `LogLevel` enum of the constants module (packed as the second
document of `src/tsdown.config.ts`, lines 19-36): the ordered enumeration
`Debug = 1, Info = 2, Warn = 3, Error = 4`. -/
inductive LogLevel where
  | Debug
  | Info
  | Warn
  | Error
deriving DecidableEq, Repr

/-- The numeric value of a level (Debug=1 .. Error=4), used by the
JavaScript `>=` comparisons and truthiness tests in `Logger.print`. -/
def LogLevel.toNat : LogLevel → Nat
  | .Debug => 1
  | .Info => 2
  | .Warn => 3
  | .Error => 4

/-- The `FileWriteStreamMode` enum of the constants module (packed as the
second document of `src/tsdown.config.ts`, lines 38-51): a string-valued
enumeration with the three members `Append`, `Truncate`, `Rename`, used by
`Logger.createFileWriteStream`. -/
inductive FileWriteStreamMode where
  | Append
  | Truncate
  | Rename
deriving DecidableEq, Repr

/-- A Node `fs.WriteStream` handle: an identity plus the `closed` and
`destroyed` flags that `Logger.isWriteStreamClosed` inspects. -/
structure StreamHandle where
  id : Nat
  closed : Bool
  destroyed : Bool
deriving DecidableEq, Repr

/-- `h.closed || h.destroyed` — the per-handle part of
`Logger.isWriteStreamClosed` (Logger.ts line 32). -/
def StreamHandle.isClosed (h : StreamHandle) : Bool :=
  h.closed || h.destroyed

/-- The `_writeStream` own-slots of a logger and its ancestors, child first
(`chain.head?` is the logger's own slot, the tail is the parent's chain).
A real logger chain is nonempty; `[]` never arises from a logger. -/
abbrev StreamChain := List (Option StreamHandle)

/-- The `writeStream` getter (Logger.ts lines 22-24):
`this._writeStream ?? this.parent?.writeStream`, resolved recursively —
the first own-slot that holds a stream, walking from the logger to the root. -/
def resolveWriteStream : StreamChain → Option StreamHandle
  | [] => none
  | some h :: _ => some h
  | none :: rest => resolveWriteStream rest

/-- The `writeStream` setter (Logger.ts lines 26-29): store the value in the
own slot; if a parent exists and no stream resolves through it
(`this.parent && !this.parent?.writeStream`), recursively assign the same
value to the parent. -/
def setWriteStream : StreamChain → StreamHandle → StreamChain
  | [], _ => []
  | _ :: rest, v =>
      some v ::
        (if !rest.isEmpty && (resolveWriteStream rest).isNone
          then setWriteStream rest v
          else rest)

/-- `Logger.isWriteStreamClosed` (Logger.ts lines 31-33):
`!this.writeStream || this.writeStream.closed || this.writeStream.destroyed`,
with `this.writeStream` the getter resolved through the parent chain. -/
def isWriteStreamClosed (c : StreamChain) : Bool :=
  match resolveWriteStream c with
  | none => true
  | some h => h.isClosed

/-- What the promise inside `closeFileWriteStream` does. -/
inductive CloseResult where
  | resolves
  | hangs
deriving DecidableEq, Repr

/-- `Logger.closeFileWriteStream` (Logger.ts lines 155-165), embedded exactly
as written: the executor runs `if (!this.isWriteStreamClosed) return resolve(this);`
and otherwise `this.writeStream?.close(resolve)`.  So when the resolved stream
is open, the promise resolves at once and the stream is left untouched; when
the check says closed, `close` is invoked on the resolved stream if one exists
(its callback fires, the stream stays closed), and when no stream resolves at
all the optional-chaining call is skipped and `resolve` is never invoked, so
the promise hangs.  The returned chain is the (unchanged) stream state. -/
def closeFileWriteStream (c : StreamChain) : CloseResult × StreamChain :=
  if isWriteStreamClosed c = false then
    (.resolves, c)
  else
    match resolveWriteStream c with
    | some _ => (.resolves, c)
    | none => (.hangs, c)

/-- The instance method `Logger.createFileWriteStream` (Logger.ts lines
146-153): throw `'Write stream already created'` when the resolved stream is
not closed, else install the freshly opened handle through the `writeStream`
setter (which propagates along the parent chain). -/
def instCreateFileWriteStream (c : StreamChain) (fresh : StreamHandle) :
    Except String StreamChain :=
  if isWriteStreamClosed c = false then
    .error "Write stream already created"
  else
    .ok (setWriteStream c fresh)

/-! ### The print path (Logger.ts lines 108-144) -/

/-- The configuration of a logger that `Logger.print` consults: the console
threshold `logLevel`, the file threshold `writeLevel` (both nullable), and the
write-stream chain the getter resolves through. -/
structure PrintLogger where
  logLevel : Option LogLevel
  writeLevel : Option LogLevel
  streams : StreamChain

/-- The JavaScript guard `threshold && level >= threshold`: a null threshold
is falsy; every level value 1..4 is truthy, so otherwise the numeric
comparison decides. -/
def levelGate (threshold : Option LogLevel) (level : LogLevel) : Bool :=
  match threshold with
  | none => false
  | some t => t.toNat ≤ level.toNat

/-- Console effect of `Logger.print` (lines 124-139): when
`this.logLevel && level >= this.logLevel`, the pretty string goes to the
sink selected 1:1 by the level switch; otherwise nothing is written. -/
def printConsole (lg : PrintLogger) (level : LogLevel) (pretty : String) :
    Option (LogLevel × String) :=
  if levelGate lg.logLevel level then some (level, pretty) else none

/-- File effect of `Logger.print` (lines 141-143): when
`!this.isWriteStreamClosed && this.writeLevel && level >= this.writeLevel`,
the simple string plus a newline is written to the resolved stream. -/
def printFile (lg : PrintLogger) (level : LogLevel) (simple : String) :
    Option String :=
  if !isWriteStreamClosed lg.streams && levelGate lg.writeLevel level then
    some (simple ++ "\n")
  else
    none

/-! ### Event bubbling (Logger.ts lines 175-179) -/

/-- A logger tree node for the emit path: its object identity, the listeners
registered on it for the emitted event, and its optional parent
(`root` plays the role of `parent = undefined`). -/
inductive LoggerNode where
  | root (id : Nat) (listeners : List Nat)
  | child (id : Nat) (listeners : List Nat) (parent : LoggerNode)
deriving DecidableEq

/-- Identity of the node. -/
def LoggerNode.nodeId : LoggerNode → Nat
  | .root i _ => i
  | .child i _ _ => i

/-- Listeners registered on the node for the event. -/
def LoggerNode.nodeListeners : LoggerNode → List Nat
  | .root _ ls => ls
  | .child _ ls _ => ls

/-- The node followed by its ancestors, child to root. -/
def LoggerNode.selfAndAncestors : LoggerNode → List LoggerNode
  | .root i ls => [.root i ls]
  | .child i ls p => .child i ls p :: p.selfAndAncestors

/-- Number of ancestors of the node. -/
def LoggerNode.ancestorCount : LoggerNode → Nat
  | .root _ _ => 0
  | .child _ _ p => p.ancestorCount + 1

/-- `Logger.emit` (lines 175-179): `super.emit` dispatches the node's own
listeners, then the event is forwarded to the parent's `emit`.  The result is
the full sequence of listener invocations, each tagged with the identity of
the logger whose emitter dispatched it, in dispatch order. -/
def emitInvocations : LoggerNode → List (Nat × Nat)
  | .root i ls => ls.map fun l => (i, l)
  | .child i ls p => (ls.map fun l => (i, l)) ++ emitInvocations p

/-- The order in which emitters dispatch during one `emit` call: the logger
itself, then each ancestor, by identity. -/
def emitDispatchOrder : LoggerNode → List Nat
  | .root i _ => [i]
  | .child i _ p => i :: emitDispatchOrder p

/-! ### Construction and cloning (Logger.ts lines 35-57, 167-191) -/

/-- An optional field of `Logger.Options` whose TypeScript type admits `null`:
`unset` is an absent/undefined key, `nullv` an explicit `null`, `val` an
explicit value. -/
inductive OptVal (α : Type) where
  | unset
  | nullv
  | val (a : α)
deriving DecidableEq, Repr

/-- `Logger.Options` (Logger.ts lines 242-273).  Object-valued fields
(formatter, parent, write stream, inspect options) are tracked by reference
identity; `none` is an absent/undefined key. -/
structure LoggerOptions where
  formatter : Option Nat
  parent : Option Nat
  label : Option String
  writeStream : Option StreamHandle
  objectInspectOptions : Option Nat
  logLevel : OptVal LogLevel
  writeLevel : OptVal LogLevel

/-- The state of a constructed `Logger` relevant to the construction and
clone claims.  `id` is the object's identity, `parent` the parent's identity.
`writeStream` holds the stream the `writeStream` accessor of this logger
resolves to (the chain mechanics themselves are modelled by `StreamChain`). -/
structure LoggerRec where
  id : Nat
  formatter : Nat
  parent : Option Nat
  label : Option String
  writeStream : Option StreamHandle
  objectInspectOptions : Option Nat
  logLevel : Option LogLevel
  writeLevel : Option LogLevel
deriving DecidableEq, Repr

/-- Line 44 of Logger.ts, parsed with JavaScript precedence
(`!==` over `??` over the conditional):
`(options?.writeLevel ?? (options?.writeLevel !== null))
  ? (options?.logLevel ?? LogLevel.Info) : null`.
An absent `writeLevel` makes the condition `undefined ?? true = true`;
an explicit `null` makes it `null ?? false = false`; an explicit level is
itself truthy (values 1..4).  A truthy condition yields
`options?.logLevel ?? LogLevel.Info`, discarding any explicit level. -/
def resolveWriteLevel (writeLevel logLevel : OptVal LogLevel) : Option LogLevel :=
  let cond : Bool :=
    match writeLevel with
    | .unset => true
    | .nullv => false
    | .val _ => true
  if cond then
    some (match logLevel with
      | .val l => l
      | _ => LogLevel.Info)
  else
    none

/-- The `Logger` constructor (Logger.ts lines 35-57).  `newId` is the fresh
object identity, `defaultFormatter` the identity of the `new Formatter()`
built when the option is absent.  Line 43 is
`options?.logLevel ?? LogLevel.Info` (so both absent and `null` collapse to
`Info`), line 44 is `resolveWriteLevel`. -/
def mkLogger (newId defaultFormatter : Nat) (o : LoggerOptions) : LoggerRec :=
  { id := newId
    formatter := o.formatter.getD defaultFormatter
    parent := o.parent
    label := o.label
    writeStream := o.writeStream
    objectInspectOptions := o.objectInspectOptions
    logLevel := some (match o.logLevel with
      | .val l => l
      | _ => LogLevel.Info)
    writeLevel := resolveWriteLevel o.writeLevel o.logLevel }

/-- `Logger.toJSON` (lines 181-191): every key is present, nullable fields
carry their current value (`null` becomes an explicit `nullv`). -/
def toJSON (l : LoggerRec) : LoggerOptions :=
  { formatter := some l.formatter
    parent := l.parent
    label := l.label
    writeStream := l.writeStream
    objectInspectOptions := l.objectInspectOptions
    logLevel := match l.logLevel with
      | some v => .val v
      | none => .nullv
    writeLevel := match l.writeLevel with
      | some v => .val v
      | none => .nullv }

/-- Object-spread merge `{...base, ...override}` for the options record:
a key present in the override wins, an absent key keeps the base value. -/
def mergeOptions (base override : LoggerOptions) : LoggerOptions :=
  { formatter := override.formatter.orElse fun _ => base.formatter
    parent := override.parent.orElse fun _ => base.parent
    label := override.label.orElse fun _ => base.label
    writeStream := override.writeStream.orElse fun _ => base.writeStream
    objectInspectOptions :=
      override.objectInspectOptions.orElse fun _ => base.objectInspectOptions
    logLevel := match override.logLevel with
      | .unset => base.logLevel
      | x => x
    writeLevel := match override.writeLevel with
      | .unset => base.writeLevel
      | x => x }

/-- `Logger.clone` (lines 167-173):
`new Logger({...this.toJSON(), parent: inheritParent ? this.parent : this, ...options})`.
The `parent` key written between the two spreads is overridden by an explicit
`parent` in `options`. -/
def clone (freshId defaultFormatter : Nat) (l : LoggerRec)
    (options : LoggerOptions) (inheritParent : Bool) : LoggerRec :=
  mkLogger freshId defaultFormatter
    (mergeOptions
      { toJSON l with parent := if inheritParent then l.parent else some l.id }
      options)

/-- Options object with every key absent (`clone()` / `new Logger()`). -/
def emptyOptions : LoggerOptions :=
  { formatter := none
    parent := none
    label := none
    writeStream := none
    objectInspectOptions := none
    logLevel := .unset
    writeLevel := .unset }

/-! ### JavaScript `Date` and string primitives

The JS runtime's `Date` is an external collaborator: a `Date` value is its
epoch-milliseconds timestamp, calendar conversion follows the proleptic
Gregorian calendar of ECMA-262, and the local-time accessors take the
environment's fixed UTC offset (in minutes) as an explicit parameter. -/

/-- Days since 1970-01-01 of a civil date (proleptic Gregorian). -/
def daysFromCivil (year : Int) (month day : Nat) : Int :=
  let y : Int := if month ≤ 2 then year - 1 else year
  let era := y.ediv 400
  let yoe := (y - era * 400).toNat
  let mp := (month + 9) % 12
  let doy := (153 * mp + 2) / 5 + day - 1
  let doe := yoe * 365 + yoe / 4 - yoe / 100 + doy
  era * 146097 + (doe : Int) - 719468

/-- Civil date (year, month, day) of a days-since-epoch count. -/
def civilFromDays (z0 : Int) : Int × Nat × Nat :=
  let z := z0 + 719468
  let era := z.ediv 146097
  let doe := (z - era * 146097).toNat
  let yoe := (doe - doe / 1460 + doe / 36524 - doe / 146096) / 365
  let y : Int := (yoe : Int) + era * 400
  let doy := doe - (365 * yoe + yoe / 4 - yoe / 100)
  let mp := (5 * doy + 2) / 153
  let d := doy - (153 * mp + 2) / 5 + 1
  let m := if mp < 10 then mp + 3 else mp - 9
  (if m ≤ 2 then y + 1 else y, m, d)

/-- Decimal rendering of a natural, left-padded with zeros to `w` digits. -/
def padNum (w n : Nat) : String :=
  let s := toString n
  String.mk (List.replicate (w - s.length) '0') ++ s

/-- `Date.prototype.toISOString` for a timestamp in the four-digit-year
range: `YYYY-MM-DDTHH:MM:SS.mmmZ`. -/
def toISOString (ms : Int) : String :=
  let days := ms.ediv 86400000
  let msod := (ms.emod 86400000).toNat
  let c := civilFromDays days
  padNum 4 c.1.toNat ++ "-" ++ padNum 2 c.2.1 ++ "-" ++ padNum 2 c.2.2 ++
    "T" ++ padNum 2 (msod / 3600000) ++ ":" ++ padNum 2 (msod % 3600000 / 60000) ++
    ":" ++ padNum 2 (msod % 60000 / 1000) ++ "." ++ padNum 3 (msod % 1000) ++ "Z"

/-- Milliseconds into the local day for a UTC offset of `tz` minutes. -/
def localMsOfDay (tz ms : Int) : Nat :=
  ((ms + tz * 60000).emod 86400000).toNat

/-- `Date.prototype.getHours` under a fixed UTC offset of `tz` minutes. -/
def getHours (tz ms : Int) : Nat := localMsOfDay tz ms / 3600000

/-- `Date.prototype.getMinutes` under a fixed UTC offset. -/
def getMinutes (tz ms : Int) : Nat := localMsOfDay tz ms % 3600000 / 60000

/-- `Date.prototype.getSeconds` under a fixed UTC offset. -/
def getSeconds (tz ms : Int) : Nat := localMsOfDay tz ms % 60000 / 1000

/-- `Date.prototype.getMilliseconds`. -/
def getMilliseconds (tz ms : Int) : Nat := localMsOfDay tz ms % 1000

/-- Days in a Gregorian month. -/
def daysInMonth (year : Int) (month : Nat) : Nat :=
  if month = 2 then
    if year.emod 4 = 0 && (year.emod 100 != 0 || year.emod 400 = 0) then 29 else 28
  else if month = 4 || month = 6 || month = 9 || month = 11 then 30
  else 31

/-- Numeric value of a decimal digit character. -/
def digitVal (c : Char) : Option Nat :=
  if c.isDigit then some (c.toNat - 48) else none

/-- `new Date(s)` on a canonical extended ISO-8601 UTC string
`YYYY-MM-DDTHH:MM:SS.mmmZ` (the only shape this repository produces):
`some` epoch-milliseconds, or `none` for an Invalid Date. -/
def parseISO (s : String) : Option Int :=
  let cs := s.data
  let ch := fun (i : Nat) => cs.getD i ' '
  if cs.length = 24 && ch 4 = '-' && ch 7 = '-' && ch 10 = 'T' && ch 13 = ':'
      && ch 16 = ':' && ch 19 = '.' && ch 23 = 'Z' then do
    let num2 := fun (i : Nat) => do
      let a ← digitVal (ch i)
      let b ← digitVal (ch (i + 1))
      pure (a * 10 + b)
    let yh ← num2 0
    let yl ← num2 2
    let year : Int := yh * 100 + yl
    let month ← num2 5
    let day ← num2 8
    let hour ← num2 11
    let minute ← num2 14
    let second ← num2 17
    let fh ← digitVal (ch 20)
    let fl ← num2 21
    let milli := fh * 100 + fl
    if 1 ≤ month && month ≤ 12 && 1 ≤ day && day ≤ daysInMonth year month
        && (hour < 24 || (hour = 24 && minute = 0 && second = 0 && milli = 0))
        && minute < 60 && second < 60 then
      some (daysFromCivil year month day * 86400000
        + (hour * 3600000 + minute * 60000 + second * 1000 + milli : Nat))
    else
      none
  else
    none

/-- JavaScript string truthiness: the empty string is falsy. -/
def strTruthy (s : String) : Bool := !s.data.isEmpty

/-- `String.prototype.trim`. -/
def jsTrim (s : String) : String :=
  String.mk
    (((s.data.dropWhile Char.isWhitespace).reverse.dropWhile
      Char.isWhitespace).reverse)

/-- `String.prototype.startsWith`. -/
def strStartsWith (s t : String) : Bool := t.data.isPrefixOf s.data

/-- `String.prototype.endsWith`. -/
def strEndsWith (s t : String) : Bool := t.data.reverse.isPrefixOf s.data.reverse

/-- `header.substring(1, header.length - 1)`: the string without its first
and last characters. -/
def strInner (s : String) : String := String.mk (s.data.drop 1).dropLast

/-- `String.prototype.split('\n')` on the character list. -/
def splitNlChars : List Char → List (List Char)
  | [] => [[]]
  | c :: rest =>
    if c = '\n' then [] :: splitNlChars rest
    else
      match splitNlChars rest with
      | [] => [[c]]
      | l :: ls => (c :: l) :: ls

/-- `content.split('\n')`. -/
def splitNl (s : String) : List String := (splitNlChars s.data).map String.mk

/-- `lines.join('\n')`. -/
def joinNl : List String → String
  | [] => ""
  | [s] => s
  | s :: rest => s ++ "\n" ++ joinNl rest

/-! ### File-system collaborator

Files are a path-to-content map (contents as the strings the code reads and
writes with utf-8 encoding), directories a list of paths.  A well-formed
state never lists one path both as file and as directory. -/

/-- File-system state. -/
structure FS where
  files : List (String × String)
  dirs : List String

/-- `readFile(p, 'utf-8')` / existence part of `stat(p)`. -/
def FS.read (fs : FS) (p : String) : Option String :=
  (fs.files.find? fun e => e.1 = p).map fun e => e.2

/-- `writeFile(p, c, 'utf-8')`: create or overwrite. -/
def FS.write (fs : FS) (p c : String) : FS :=
  if (fs.files.find? fun e => e.1 = p).isSome then
    { fs with files := fs.files.map fun e => if e.1 = p then (p, c) else e }
  else
    { fs with files := fs.files ++ [(p, c)] }

/-- Remove a file entry. -/
def FS.erase (fs : FS) (p : String) : FS :=
  { fs with files := fs.files.filter fun e => e.1 != p }

/-- `rename(old, new)`: fails when the source does not exist. -/
def FS.renameF (fs : FS) (oldP newP : String) : Option FS := do
  let c ← fs.read oldP
  some ((fs.erase oldP).write newP c)

/-- Append to a file through an open write handle. -/
def FS.appendF (fs : FS) (p c : String) : FS :=
  fs.write p ((fs.read p).getD "" ++ c)

/-- `mkdir(d, { recursive: true })`: succeeds and records the directory. -/
def FS.mkdirRec (fs : FS) (d : String) : FS :=
  if fs.dirs.contains d then fs else { fs with dirs := d :: fs.dirs }

/-- The fields of `fs.Stats` that `Utils.getFileCreationDate` reads:
`birthtimeMs`, and the `birthtime` / `ctime` dates as epoch milliseconds. -/
structure Stats where
  birthtimeMs : Int
  birthtime : Int
  ctime : Int
deriving DecidableEq, Repr

/-! ### Utils.ts -/

/-- `s.substring(0, n)` as used by `formatDateFileName`. -/
def strTake (s : String) (n : Nat) : String := String.mk (s.data.take n)

/-- `Utils.formatDateFileName` (Utils.ts lines 75-77):
the UTC date part of `toISOString` followed by the unpadded local-time
hour, minute, second and millisecond, joined by dashes.  `tz` is the
environment's UTC offset in minutes. -/
def formatDateFileName (tz ms : Int) : String :=
  strTake (toISOString ms) 10 ++ "-" ++ toString (getHours tz ms) ++ "-" ++
    toString (getMinutes tz ms) ++ "-" ++ toString (getSeconds tz ms) ++ "-" ++
    toString (getMilliseconds tz ms)

/-- `Utils.logDateHeader` (Utils.ts lines 79-81). -/
def logDateHeader (ms : Int) : String := "[" ++ toISOString ms ++ "]"

/-- `Utils.getFileCreationDate` (Utils.ts lines 21-35) with `statData` and
`lines` supplied (as `gzipCompressLog` does): birth time when `birthtimeMs`
is truthy, else `ctime`, overridden by a well-formed leading `[...]` header
line.  `none` models the Invalid Date produced when the header brackets
match but the timestamp does not parse. -/
def getFileCreationDate (statData : Stats) (lines : List String) : Option Int :=
  let createdAt := if statData.birthtimeMs != 0 then statData.birthtime
    else statData.ctime
  let header := jsTrim (lines.headD "")
  if strTruthy header && strStartsWith header "[" && strEndsWith header "]" then
    parseISO (strInner header)
  else
    some createdAt

/-- `Utils.gzipCompressLog` (Utils.ts lines 37-54) on the parsed path
`dir/fname ++ ext`.  `gz` is the composite collaborator
`content ↦ Buffer.from(gzip(Buffer.from(content))).toString('utf-8')` as one
string transform (its byte-level behaviour is examined separately): the code
reads the lines, derives the creation date, writes `gz` of the re-joined
lines back to the original path, then renames it to
`formatDateFileName(createdAt) ++ ext ++ ".gz"` in the same directory.
`none` models a rejected promise (missing file or invalid date). -/
def gzipCompressLog (gz : String → String) (tz : Int) (fs : FS)
    (dir fname ext : String) (statData : Stats) : Option FS := do
  let file := dir ++ "/" ++ fname ++ ext
  let content ← fs.read file
  let lines := splitNl content
  let createdAt ← getFileCreationDate statData lines
  let newFile := dir ++ "/" ++ formatDateFileName tz createdAt ++ ext ++ ".gz"
  let fs1 := fs.write file (gz (joinNl lines))
  fs1.renameF file newFile

/-! ### The static factory `Logger.createFileWriteStream`
(Logger.ts lines 193-238) -/

/-- `options.initialData`: a literal string or a path-to-content function. -/
inductive InitialData where
  | str (s : String)
  | fn (f : String → String)

/-- Evaluate the initial data against the resolved file path
(lines 199-201, before the newline is appended). -/
def InitialData.render (d : InitialData) (file : String) : String :=
  match d with
  | .str s => s
  | .fn f => f file

/-- JavaScript truthiness of the `options.initialData` value at line 235:
a function is truthy, a string is truthy unless empty. -/
def InitialData.truthy (d : InitialData) : Bool :=
  match d with
  | .str s => strTruthy s
  | .fn _ => true

/-- `Logger.WriteStreamOptions` with the destination path already resolved
and parsed (`path.parse(path.resolve(options.path))`): the directory, the
file name, and the extension.  `renameFn` is the optional custom
`renameFile(file, stat)` routine as a file-system transform (`none` result
models its rejection). -/
structure WriteStreamOptions where
  dir : String
  fname : String
  ext : String
  mode : FileWriteStreamMode
  renameFn : Option (FS → String → Stats → Option FS)
  initialData : Option InitialData

/-- The open write-stream handle the factory returns. -/
structure OpenStream where
  path : String
deriving DecidableEq, Repr

/-- The static `Logger.createFileWriteStream` (Logger.ts lines 193-238).
External collaborators are parameters: `gz` the compression pipeline, `tz`
the environment UTC offset, `now` the clock reading of `new Date()` at line
194, `statOf` the `fs.Stats` the file system reports for an existing path.
Steps, in source order: default the initial data to `logDateHeader(new
Date())`; stat the target (a directory makes it a non-file and raises); make
the parent directory; apply the mode (Truncate overwrites an existing file
with the initial data; Rename runs the custom or default gzip rotation and,
when the original path vanished, writes the initial data there); open the
stream with flag `'a'` for Append else `'w'` (which truncates); read the
file back and, when initial data was requested and the file is empty, write
the initial data through the stream. -/
def staticCreateFileWriteStream (gz : String → String) (tz now : Int)
    (statOf : String → Stats) (fs0 : FS) (o : WriteStreamOptions) :
    Except String (FS × OpenStream) := do
  let initD := o.initialData.getD (.str (logDateHeader now))
  let file := o.dir ++ "/" ++ o.fname ++ o.ext
  let fileExists := (fs0.read file).isSome
  let isDir := fs0.dirs.contains file
  let initialData := initD.render file ++ "\n"
  if !fileExists && isDir then
    throw "Write stream path is not a file"
  let fs1 := fs0.mkdirRec o.dir
  let fs2 ← match o.mode with
    | .Append => pure fs1
    | .Truncate =>
        if !fileExists then pure fs1
        else pure (fs1.write file initialData)
    | .Rename =>
        if !fileExists then pure fs1
        else do
          let st := statOf file
          let rotated ← match o.renameFn with
            | some rf =>
                match rf fs1 file st with
                | some r => pure r
                | none => throw "rename rejected"
            | none =>
                match gzipCompressLog gz tz fs1 o.dir o.fname o.ext st with
                | some r => pure r
                | none => throw "Invalid time value"
          pure (if (rotated.read file).isSome then rotated
            else rotated.write file initialData)
  let fs3 :=
    if o.mode = FileWriteStreamMode.Append then
      if (fs2.read file).isSome then fs2 else fs2.write file ""
    else
      fs2.write file ""
  let content := (fs3.read file).getD ""
  let fs4 :=
    if initD.truthy && content.data.isEmpty then fs3.appendF file initialData
    else fs3
  pure (fs4, ⟨file⟩)

/-! ### Byte-level model of `data.toString('utf-8')` followed by
`writeFile(..., 'utf-8')` (Utils.ts line 52)

`Buffer.prototype.toString('utf-8')` decodes arbitrary bytes to a sequence
of Unicode code points, replacing ill-formed sequences with U+FFFD;
`writeFile` then encodes those code points back to UTF-8 bytes. -/

/-- UTF-8 decoding with U+FFFD replacement of ill-formed sequences (the
WHATWG behaviour of `Buffer.prototype.toString('utf-8')`), driven by a fuel
that the caller sets to the byte count. -/
def utf8DecodeGo : Nat → List Nat → List Nat
  | 0, _ => []
  | _, [] => []
  | fuel + 1, b :: rest =>
    if b < 0x80 then b :: utf8DecodeGo fuel rest
    else if b < 0xC2 then 0xFFFD :: utf8DecodeGo fuel rest
    else if b < 0xE0 then
      match rest with
      | b2 :: rest2 =>
        if 0x80 ≤ b2 && b2 < 0xC0 then
          ((b - 0xC0) * 64 + (b2 - 0x80)) :: utf8DecodeGo fuel rest2
        else 0xFFFD :: utf8DecodeGo fuel rest
      | [] => 0xFFFD :: utf8DecodeGo fuel []
    else if b < 0xF0 then
      let lo2 := if b = 0xE0 then 0xA0 else 0x80
      let hi2 := if b = 0xED then 0x9F else 0xBF
      match rest with
      | b2 :: rest2 =>
        if lo2 ≤ b2 && b2 ≤ hi2 then
          match rest2 with
          | b3 :: rest3 =>
            if 0x80 ≤ b3 && b3 < 0xC0 then
              ((b - 0xE0) * 4096 + (b2 - 0x80) * 64 + (b3 - 0x80))
                :: utf8DecodeGo fuel rest3
            else 0xFFFD :: utf8DecodeGo fuel rest2
          | [] => 0xFFFD :: utf8DecodeGo fuel []
        else 0xFFFD :: utf8DecodeGo fuel rest
      | [] => 0xFFFD :: utf8DecodeGo fuel []
    else if b < 0xF5 then
      let lo2 := if b = 0xF0 then 0x90 else 0x80
      let hi2 := if b = 0xF4 then 0x8F else 0xBF
      match rest with
      | b2 :: rest2 =>
        if lo2 ≤ b2 && b2 ≤ hi2 then
          match rest2 with
          | b3 :: rest3 =>
            if 0x80 ≤ b3 && b3 < 0xC0 then
              match rest3 with
              | b4 :: rest4 =>
                if 0x80 ≤ b4 && b4 < 0xC0 then
                  ((b - 0xF0) * 262144 + (b2 - 0x80) * 4096
                      + (b3 - 0x80) * 64 + (b4 - 0x80))
                    :: utf8DecodeGo fuel rest4
                else 0xFFFD :: utf8DecodeGo fuel rest3
              | [] => 0xFFFD :: utf8DecodeGo fuel []
            else 0xFFFD :: utf8DecodeGo fuel rest2
          | [] => 0xFFFD :: utf8DecodeGo fuel []
        else 0xFFFD :: utf8DecodeGo fuel rest
      | [] => 0xFFFD :: utf8DecodeGo fuel []
    else 0xFFFD :: utf8DecodeGo fuel rest

/-- `Buffer.prototype.toString('utf-8')`: bytes to code points. -/
def bufferToStringUtf8 (bs : List Nat) : List Nat := utf8DecodeGo bs.length bs

/-- UTF-8 encoding of one code point. -/
def utf8EncodeChar (c : Nat) : List Nat :=
  if c < 0x80 then [c]
  else if c < 0x800 then [0xC0 + c / 64, 0x80 + c % 64]
  else if c < 0x10000 then [0xE0 + c / 4096, 0x80 + c / 64 % 64, 0x80 + c % 64]
  else [0xF0 + c / 262144, 0x80 + c / 4096 % 64, 0x80 + c / 64 % 64,
    0x80 + c % 64]

/-- UTF-8 encoding of a code-point sequence (what `writeFile` with encoding
`'utf-8'` stores). -/
def utf8Encode (cs : List Nat) : List Nat := (cs.map utf8EncodeChar).flatten

/-- The bytes `Utils.gzipCompressLog` actually stores at the original path
(line 52): the compressed buffer `gzipC content` is passed through
`toString('utf-8')` and re-encoded by `writeFile`. -/
def gzipLogWrittenBytes (gzipC : List Nat → List Nat) (content : List Nat) :
    List Nat :=
  utf8Encode (bufferToStringUtf8 (gzipC content))

/-! ### Helper lemmas -/

/-- The resolved stream is "not closed" exactly when some stream resolves
through the chain and its `closed` and `destroyed` flags are both unset. -/
theorem isWriteStreamClosed_eq_false_iff (c : StreamChain) :
    isWriteStreamClosed c = false ↔
      ∃ h, resolveWriteStream c = some h ∧ h.closed = false
        ∧ h.destroyed = false := by
  unfold isWriteStreamClosed
  cases hr : resolveWriteStream c with
  | none => simp
  | some h => simp [StreamHandle.isClosed]

/-- `threshold && level >= threshold` succeeds exactly when the threshold is
a level below or at the message level. -/
theorem levelGate_eq_true_iff (t : Option LogLevel) (level : LogLevel) :
    levelGate t level = true ↔ ∃ u, t = some u ∧ u.toNat ≤ level.toNat := by
  cases t <;> simp [levelGate]

/-! ### Claim theorems -/

/-- Options `{ logLevel: Warn }`. -/
def optsLogWarn : LoggerOptions := { emptyOptions with logLevel := .val .Warn }

/-- Options `{ writeLevel: null, logLevel: Warn }`. -/
def optsWriteNullLogWarn : LoggerOptions :=
  { optsLogWarn with writeLevel := .nullv }

/-- Options `{ writeLevel: Debug }`. -/
def optsWriteDebug : LoggerOptions :=
  { emptyOptions with writeLevel := .val .Debug }

/-- Options `{ writeLevel: Debug, logLevel: Warn }`. -/
def optsWriteDebugLogWarn : LoggerOptions :=
  { optsLogWarn with writeLevel := .val .Debug }

/-- Claim C1 (code bug).  The constructor's coalescing on Logger.ts line 44
handles the omitted case (falls back to `logLevel ?? Info`) and the explicit
`null` case (disables file writing) as the claim states, but an explicit
non-null `writeLevel` is discarded: the truthy level makes the parsed
condition succeed and the result is `options?.logLevel ?? LogLevel.Info`, not
the passed level.  Passing `writeLevel: Debug` with `logLevel` omitted yields
`Info`; with `logLevel: Warn` it yields `Warn` — never `Debug`. -/
theorem constructor_writeLevel_resolution :
    (mkLogger 0 0 emptyOptions).writeLevel = some LogLevel.Info
    ∧ (mkLogger 0 0 optsLogWarn).writeLevel = some LogLevel.Warn
    ∧ (mkLogger 0 0 optsWriteNullLogWarn).writeLevel = none
    ∧ (mkLogger 0 0 optsWriteDebug).writeLevel = some LogLevel.Info
    ∧ (mkLogger 0 0 optsWriteDebugLogWarn).writeLevel = some LogLevel.Warn := by
  decide

/-- Claim C2 (code bug).  The promise executor in `closeFileWriteStream`
(Logger.ts lines 155-165) has its check inverted: an OPEN resolved stream
takes the `resolve(this)` early return, so the promise resolves with the
stream left open and the handle is never closed; when NO stream resolves,
`this.writeStream?.close(resolve)` short-circuits on `undefined` and
`resolve` is never invoked, so the promise hangs instead of resolving
immediately; only the already-closed-stream case resolves as the claim
describes (with nothing to do). -/
theorem closeFileWriteStream_inverted_check :
    closeFileWriteStream [some ⟨1, false, false⟩]
      = (CloseResult.resolves, [some ⟨1, false, false⟩])
    ∧ closeFileWriteStream [none] = (CloseResult.hangs, [none])
    ∧ closeFileWriteStream [some ⟨1, true, false⟩]
      = (CloseResult.resolves, [some ⟨1, true, false⟩]) := by
  decide

/-- Claim C4 (code bug).  `Utils.gzipCompressLog` stores
`data.toString('utf-8')` (Utils.ts line 52): the compressed buffer is
decoded as UTF-8 (ill-formed bytes become U+FFFD) and re-encoded by
`writeFile`.  Every gzip stream begins with the magic bytes 1f 8b 08, and
0x8b is an ill-formed UTF-8 byte, so the stored bytes start
1f ef bf bd 08 and never equal the compressed bytes. -/
theorem gzip_rotated_bytes_corrupted (gzipC : List Nat → List Nat)
    (content : List Nat) (hmagic : gzipC content = [0x1f, 0x8b, 0x08]) :
    gzipLogWrittenBytes gzipC content = [0x1f, 0xEF, 0xBF, 0xBD, 0x08]
    ∧ gzipLogWrittenBytes gzipC content ≠ gzipC content := by
  unfold gzipLogWrittenBytes
  rw [hmagic]
  exact ⟨by decide, by decide⟩

/-- Witness for C4 at a concrete codec output. -/
theorem gzip_rotated_bytes_corrupted_witness :
    gzipLogWrittenBytes (fun _ => [0x1f, 0x8b, 0x08]) []
      = [0x1f, 0xEF, 0xBF, 0xBD, 0x08]
    ∧ gzipLogWrittenBytes (fun _ => [0x1f, 0x8b, 0x08]) [] ≠ [0x1f, 0x8b, 0x08] :=
  gzip_rotated_bytes_corrupted (fun _ => [0x1f, 0x8b, 0x08]) [] rfl

/-- An original logger for the clone claim: identity 0, formatter 7, parent
identity 5, label "L", `logLevel = Info`, and `writeLevel = Warn` (the
`writeLevel` field is public and mutable, so this state is reachable). -/
def cloneOriginal : LoggerRec :=
  ⟨0, 7, some 5, some "L", none, none, some .Info, some .Warn⟩

/-- Options `{ label: 'X' }`. -/
def optsLabelX : LoggerOptions := { emptyOptions with label := some "X" }

/-- Claim C7 (code bug).  `clone` with the default `inheritParent = true`
does give the clone the original's parent, and `clone(options, false)` makes
the original the parent, and an explicit override (here `label`) wins; but
"all other configuration is copied" fails for the thresholds, because the
merged options are re-run through the constructor and line 44 re-derives
`writeLevel`: an original with `logLevel = Info` and `writeLevel = Warn`
produces a clone with `writeLevel = Info`. -/
theorem clone_parent_and_threshold_copy :
    (clone 1 7 cloneOriginal emptyOptions true).parent = some 5
    ∧ (clone 1 7 cloneOriginal emptyOptions false).parent = some 0
    ∧ (clone 1 7 cloneOriginal emptyOptions true).label = some "L"
    ∧ (clone 1 7 cloneOriginal optsLabelX true).label = some "X"
    ∧ cloneOriginal.writeLevel = some LogLevel.Warn
    ∧ (clone 1 7 cloneOriginal emptyOptions true).writeLevel
        = some LogLevel.Info := by
  decide

/-- Claim C10, counterexample.  A descendant whose own slot is empty, whose
parent holds a CLOSED stream, and whose grandparent holds an OPEN stream:
the getter resolves to the nearest stream (the closed one), so
`isWriteStreamClosed` is true and the instance `createFileWriteStream`
succeeds instead of throwing, although an ancestor holds an open stream. -/
theorem descendant_create_ignores_shadowed_open_ancestor :
    instCreateFileWriteStream
        [none, some ⟨1, true, false⟩, some ⟨2, false, false⟩] ⟨3, false, false⟩
      = .ok [some ⟨3, false, false⟩, some ⟨1, true, false⟩,
          some ⟨2, false, false⟩]
    ∧ (⟨2, false, false⟩ : StreamHandle).isClosed = false :=
  ⟨rfl, rfl⟩

/-- The rotation-scenario file system: `/logs/latest.log` holds the header
`[2023-01-01T00:00:00.000Z]` and one line of content. -/
def rotationScenarioFS : FS :=
  ⟨[("/logs/latest.log", "[2023-01-01T00:00:00.000Z]\nhello world")],
    ["/logs"]⟩

/-- The rotation-scenario factory options: `/logs/latest.log`, mode Rename,
no custom rename routine, no explicit initial data. -/
def rotationScenarioOpts : WriteStreamOptions :=
  ⟨"/logs", "latest", ".log", .Rename, none, none⟩

/-- Claim C3 (confirmed, in a UTC environment).  With the clock at
2023-01-02T00:00:00.000Z and the environment offset 0 (the code derives the
file-name time-of-day from the LOCAL `getHours`/`getMinutes`/… while taking
the date from `toISOString`, so the claimed name arises when the environment
is UTC), the static factory in Rename mode rotates the prior file to
`2023-01-01-0-0-0-0.log.gz` — the timestamp parsed from the header line —
holding the codec pipeline's output on the prior content, and leaves a fresh
`latest.log` holding exactly the newly computed header
`[2023-01-02T00:00:00.000Z]` plus newline (the factory's `'w'` open truncates
the intermediate write and the empty-file check rewrites the header through
the stream).  Universal over the codec `gz` and the file's stat data. -/
theorem rename_rotation_scenario (gz : String → String)
    (statOf : String → Stats) :
    staticCreateFileWriteStream gz 0 1672617600000 statOf rotationScenarioFS
        rotationScenarioOpts
      = .ok (⟨[("/logs/2023-01-01-0-0-0-0.log.gz",
            gz "[2023-01-01T00:00:00.000Z]\nhello world"),
          ("/logs/latest.log", "[2023-01-02T00:00:00.000Z]\n")], ["/logs"]⟩,
        ⟨"/logs/latest.log"⟩) :=
  rfl

/-- Claim C5 (confirmed).  `Logger.print` writes the pretty string to the
console sink iff the console threshold is non-null and at or below the
message level; it writes the simple string plus a newline to the file stream
iff a stream resolves through the parent chain with `closed` and `destroyed`
both unset, the write threshold is non-null, and it is at or below the
message level; a null threshold disables its sink, and a closed resolved
stream disables the file sink. -/
theorem print_threshold_gating (lg : PrintLogger) (level : LogLevel)
    (pretty simple : String) :
    (printConsole lg level pretty = some (level, pretty) ↔
      ∃ t, lg.logLevel = some t ∧ t.toNat ≤ level.toNat)
    ∧ (lg.logLevel = none → printConsole lg level pretty = none)
    ∧ (printFile lg level simple = some (simple ++ "\n") ↔
      ((∃ h, resolveWriteStream lg.streams = some h ∧ h.closed = false
          ∧ h.destroyed = false)
        ∧ ∃ t, lg.writeLevel = some t ∧ t.toNat ≤ level.toNat))
    ∧ (lg.writeLevel = none → printFile lg level simple = none)
    ∧ (isWriteStreamClosed lg.streams = true →
        printFile lg level simple = none) := by
  refine ⟨?_, ?_, ?_, ?_, ?_⟩
  · rw [← levelGate_eq_true_iff]
    unfold printConsole
    split <;> simp_all
  · intro h
    simp [printConsole, levelGate, h]
  · rw [← levelGate_eq_true_iff, ← isWriteStreamClosed_eq_false_iff]
    unfold printFile
    split <;> rename_i hc <;>
      simp_all [Bool.and_eq_true, Bool.not_eq_true']
  · intro h
    simp [printFile, levelGate, h]
  · intro h
    simp [printFile, h]

/-- Dispatch order of one `emit` call: the chain's identities, child first. -/
theorem emitDispatchOrder_eq_chain (l : LoggerNode) :
    emitDispatchOrder l = l.selfAndAncestors.map LoggerNode.nodeId := by
  induction l with
  | root i ls => rfl
  | child i ls p ih =>
      simp [emitDispatchOrder, LoggerNode.selfAndAncestors, ih,
        LoggerNode.nodeId]

theorem selfAndAncestors_length (l : LoggerNode) :
    l.selfAndAncestors.length = l.ancestorCount + 1 := by
  induction l with
  | root i ls => rfl
  | child i ls p ih =>
      simp [LoggerNode.selfAndAncestors, LoggerNode.ancestorCount, ih]

theorem emitInvocations_eq_chain (l : LoggerNode) :
    emitInvocations l
      = l.selfAndAncestors.flatMap
          fun n => n.nodeListeners.map fun x => (n.nodeId, x) := by
  induction l with
  | root i ls =>
      simp [emitInvocations, LoggerNode.selfAndAncestors,
        LoggerNode.nodeId, LoggerNode.nodeListeners]
  | child i ls p ih =>
      simp [emitInvocations, LoggerNode.selfAndAncestors,
        LoggerNode.nodeId, LoggerNode.nodeListeners, ih]

/-- Claim C6 (confirmed).  One `emit` call dispatches at the logger and then
at each ancestor in child-to-root order; assuming the nodes of the chain are
distinct objects (distinct identities — always true of an acyclic
JavaScript parent chain), each logger in the chain dispatches exactly once,
for `N + 1` dispatches on a logger with `N` ancestors, and the listener
invocations are exactly each node's listeners grouped in that order. -/
theorem emit_bubbles_child_to_root (l : LoggerNode)
    (hid : (l.selfAndAncestors.map LoggerNode.nodeId).Nodup) :
    emitDispatchOrder l = l.selfAndAncestors.map LoggerNode.nodeId
    ∧ (emitDispatchOrder l).length = l.ancestorCount + 1
    ∧ (∀ a ∈ l.selfAndAncestors, (emitDispatchOrder l).count a.nodeId = 1)
    ∧ emitInvocations l
        = l.selfAndAncestors.flatMap
            fun n => n.nodeListeners.map fun x => (n.nodeId, x) := by
  refine ⟨emitDispatchOrder_eq_chain l, ?_, ?_, emitInvocations_eq_chain l⟩
  · rw [emitDispatchOrder_eq_chain l, List.length_map,
      selfAndAncestors_length l]
  · intro a ha
    rw [emitDispatchOrder_eq_chain l]
    exact List.count_eq_one_of_mem hid
      (List.mem_map_of_mem LoggerNode.nodeId ha)

/-- Witness for C6 on a concrete three-logger chain with distinct ids. -/
theorem emit_bubbles_child_to_root_witness :
    emitDispatchOrder (LoggerNode.child 0 [10] (.child 1 [11] (.root 2 [12])))
      = [0, 1, 2]
    ∧ (emitDispatchOrder
        (LoggerNode.child 0 [10] (.child 1 [11] (.root 2 [12])))).count 1
      = 1 := by
  have h := emit_bubbles_child_to_root
    (LoggerNode.child 0 [10] (.child 1 [11] (.root 2 [12]))) (by decide)
  exact ⟨h.1, h.2.2.1 (.child 1 [11] (.root 2 [12])) (by decide)⟩

/-- Claim C8 (confirmed).  For a child whose own slot is empty and through
whose parent no stream resolves, assigning a stream to the child stores the
identical handle in the parent's slot as well (and it is what both then
resolve); an ancestor through which a stream already resolves keeps every
slot unchanged under a descendant's assignment; and the getter returns the
own slot when set, else the parent's resolved stream. -/
theorem writeStream_sharing (pOwn : Option StreamHandle) (rest : StreamChain)
    (v : StreamHandle)
    (hnone : resolveWriteStream (pOwn :: rest) = none) :
    (∃ tail, setWriteStream (none :: pOwn :: rest) v
        = some v :: some v :: tail)
    ∧ resolveWriteStream (setWriteStream (none :: pOwn :: rest) v) = some v
    ∧ (∀ own c w, resolveWriteStream c = some w →
        setWriteStream (own :: c) v = some v :: c)
    ∧ (∀ s c, resolveWriteStream (some s :: c) = some s)
    ∧ (∀ c, resolveWriteStream ((none : Option StreamHandle) :: c)
        = resolveWriteStream c) := by
  have hp : pOwn = none := by
    cases pOwn with
    | none => rfl
    | some h => simp [resolveWriteStream] at hnone
  subst hp
  have hr : resolveWriteStream rest = none := by
    simpa [resolveWriteStream] using hnone
  have hmain : setWriteStream (none :: none :: rest) v
      = some v :: some v ::
          (if !rest.isEmpty && (resolveWriteStream rest).isNone
            then setWriteStream rest v else rest) := by
    simp [setWriteStream, hnone, hr]
  refine ⟨⟨_, hmain⟩, ?_, ?_, fun s c => rfl, fun c => rfl⟩
  · rw [hmain]; rfl
  · intro own c w hw
    cases c with
    | nil => simp [resolveWriteStream] at hw
    | cons x xs => simp [setWriteStream, hw]

/-- Witness for C8: a fresh parent-child pair with no streams anywhere. -/
theorem writeStream_sharing_witness :
    (∃ tail, setWriteStream [none, none] ⟨1, false, false⟩
        = some ⟨1, false, false⟩ :: some ⟨1, false, false⟩ :: tail)
    ∧ resolveWriteStream (setWriteStream [none, none] ⟨1, false, false⟩)
      = some ⟨1, false, false⟩ := by
  have h := writeStream_sharing none [] ⟨1, false, false⟩ rfl
  exact ⟨h.1, h.2.1⟩

/-- Claim C9 (confirmed).  Whenever the stream resolved through a logger is
open, the instance `createFileWriteStream` throws the
`'Write stream already created'` error (leaving the chain untouched by
construction); and from any logger whose resolved stream is absent or
closed, a first call succeeds installing the freshly opened handle, after
which a second call without an intervening close throws that error. -/
theorem createFileWriteStream_twice_fails (c : StreamChain)
    (f g : StreamHandle) (hne : c ≠ [])
    (hclosed : isWriteStreamClosed c = true)
    (hfc : f.closed = false) (hfd : f.destroyed = false) :
    (∀ c2 h2, isWriteStreamClosed c2 = false →
      instCreateFileWriteStream c2 h2
        = .error "Write stream already created")
    ∧ ∃ c2, instCreateFileWriteStream c f = .ok c2
        ∧ instCreateFileWriteStream c2 g
          = .error "Write stream already created" := by
  constructor
  · intro c2 h2 h
    simp [instCreateFileWriteStream, h]
  · refine ⟨setWriteStream c f, ?_, ?_⟩
    · simp [instCreateFileWriteStream, hclosed]
    · obtain ⟨x, xs, rfl⟩ : ∃ x xs, c = x :: xs := by
        cases c with
        | nil => exact absurd rfl hne
        | cons x xs => exact ⟨x, xs, rfl⟩
      have hopen : isWriteStreamClosed (setWriteStream (x :: xs) f)
          = false := by
        simp [setWriteStream, isWriteStreamClosed, resolveWriteStream,
          StreamHandle.isClosed, hfc, hfd]
      simp [instCreateFileWriteStream, hopen]

/-- Witness for C9: a root logger with an empty slot; two fresh handles. -/
theorem createFileWriteStream_twice_fails_witness :
    ∃ c2, instCreateFileWriteStream [none] ⟨1, false, false⟩ = .ok c2
      ∧ instCreateFileWriteStream c2 ⟨2, false, false⟩
        = .error "Write stream already created" :=
  (createFileWriteStream_twice_fails [none] ⟨1, false, false⟩
    ⟨2, false, false⟩ (by decide) rfl rfl rfl).2

/-- Claim C10, amended (corrected).  On a descendant logger whose own slot
was never set, the instance `createFileWriteStream` throws the
`'Write stream already created'` error exactly when the stream resolved
through the parent chain — the NEAREST ancestor stream, not an arbitrary
ancestor's — is open (not closed/destroyed). -/
theorem descendant_create_gated_by_resolved_stream (rest : StreamChain)
    (f : StreamHandle) :
    instCreateFileWriteStream (none :: rest) f
        = .error "Write stream already created"
    ↔ ∃ h, resolveWriteStream rest = some h ∧ h.closed = false
        ∧ h.destroyed = false := by
  rw [← isWriteStreamClosed_eq_false_iff]
  unfold instCreateFileWriteStream
  have hstep : isWriteStreamClosed (none :: rest) = isWriteStreamClosed rest := by
    simp [isWriteStreamClosed, resolveWriteStream]
  rw [hstep]
  cases hb : isWriteStreamClosed rest with
  | false => simp
  | true => simp

end Prtyprnt
